import Mathlib

/-!
Shallow embedding of the ws-pong server core (src/game.go and the hub-facing
part of src/main.go).  Go float64 values are modelled as real numbers, Go int
and int32 as integers, Go string as String, time.Time as `Option ℝ` (seconds;
`none` is the zero time, so `IsZero` becomes `= none`), maps as association
lists (rooms, clients) or finite sets (spectator id sets), and the two
rand draws of a round reset are passed in explicitly (`u` for rand.Float64,
`b` for rand.IntN 2 == 0).  time.Now() is passed explicitly as `now`.
-/

open scoped Classical

namespace Pong

/-! ## World constants (src/game.go lines 14-25, 193) -/

def worldW : ℝ := 800
def worldH : ℝ := 600
def paddleW : ℝ := 12
def paddleH : ℝ := 90
def ballRadius : ℝ := 8
def paddleMargin : ℝ := 20
def paddleSpeedPxS : ℝ := 420
def ballBaseSpeed : ℝ := 360
def maxBallSpeed : ℝ := 850
def tickRate : ℕ := 60

/-- matchDuration = 5 * time.Minute, in seconds. -/
def matchDuration : ℝ := 300

/-! ## Data model -/

/-- Input state of a client: the two atomic fields moveDir and mouseY of the
Go client struct (mouseY is an int32; a negative value means unused). -/
structure Input where
  moveDir : ℤ
  mouseY : ℤ
deriving Repr, DecidableEq

/-- The hub-visible part of a Go client struct: seat (`side`), the room the
client points at (modelled by the room id, which is never reused), and the
display name. -/
structure Client where
  side : ℤ
  roomId : Option String
  name : String
deriving Repr, DecidableEq

/-- Fresh client as built in handleWS: side -1, no room, empty name. -/
def defaultClient : Client := { side := -1, roomId := none, name := "" }

/-- One room of the hub: seats, spectator id set, paddle/ball/score state and
the match clock (src/game.go lines 41-59). -/
structure Room where
  id : String
  players0 : Option String
  players1 : Option String
  spectators : Finset String
  paddleY0 : ℝ
  paddleY1 : ℝ
  score0 : ℤ
  score1 : ℤ
  ballX : ℝ
  ballY : ℝ
  ballVX : ℝ
  ballVY : ℝ
  startTime : Option ℝ
  endTime : Option ℝ
  lastTick : Option ℝ

/-- The hub together with the client structs the connection handlers own
(src/game.go lines 61-66). -/
structure GameState where
  clients : List (String × Client)
  waitQ : List String
  nextRID : ℤ
  rooms : List (String × Room)

/-! ## Association-list helpers (Go map semantics: unique keys) -/

def alGet {α : Type} (m : List (String × α)) (k : String) : Option α :=
  match m with
  | [] => none
  | (k1, v) :: rest => if k1 = k then some v else alGet rest k

def alSet {α : Type} (m : List (String × α)) (k : String) (v : α) :
    List (String × α) :=
  match m with
  | [] => [(k, v)]
  | (k1, v1) :: rest =>
    if k1 = k then (k, v) :: rest else (k1, v1) :: alSet rest k v

def alDel {α : Type} (m : List (String × α)) (k : String) : List (String × α) :=
  match m with
  | [] => []
  | (k1, v1) :: rest => if k1 = k then rest else (k1, v1) :: alDel rest k

/-- Look up a client struct; a connected client always exists, missing keys
fall back to the fresh-client value (pointer semantics of the source). -/
def getClient (cs : List (String × Client)) (cid : String) : Client :=
  match cs with
  | [] => defaultClient
  | (k, c) :: rest => if k = cid then c else getClient rest cid

/-- Update (or create) the client struct of `cid` in place. -/
def setClient (cs : List (String × Client)) (cid : String) (f : Client → Client) :
    List (String × Client) :=
  match cs with
  | [] => [(cid, f defaultClient)]
  | (k, c) :: rest =>
    if k = cid then (k, f c) :: rest else (k, c) :: setClient rest cid f

/-! ## itoa (src/game.go lines 379-399) -/

def digitChar (d : ℕ) : Char := Char.ofNat (48 + d)

def itoaLoop (n : ℕ) (acc : List Char) : List Char :=
  if h : n = 0 then acc
  else itoaLoop (n / 10) (digitChar (n % 10) :: acc)
termination_by n
decreasing_by exact Nat.div_lt_self (Nat.pos_of_ne_zero h) (by norm_num)

def itoa (n : ℤ) : String :=
  if n = 0 then "0"
  else (if n < 0 then "-" else "") ++ String.mk (itoaLoop n.natAbs [])

/-! ## clamp (src/game.go lines 369-377) -/

noncomputable def clamp (v lo hi : ℝ) : ℝ :=
  if v < lo then lo else if v > hi then hi else v

/-! ## Round reset (src/game.go resetRoundLocked, lines 204-225)

The draw `u` stands for rand.Float64() (so u ∈ [0,1) on real executions) and
`b` stands for rand.IntN(2) == 0. -/

noncomputable def resetRound (u : ℝ) (b : Bool) (now : ℝ) (r : Room) : Room :=
  let angle := u * 0.8 - 0.4
  let dir : ℝ := if b then -1 else 1
  { r with
    paddleY0 := (worldH - paddleH) / 2
    paddleY1 := (worldH - paddleH) / 2
    ballX := worldW / 2
    ballY := worldH / 2
    ballVX := dir * ballBaseSpeed
    ballVY := Real.tan angle * ballBaseSpeed
    lastTick := some now
    startTime := match r.startTime with
      | none => some now
      | some t => some t
    endTime := match r.startTime with
      | none => some (now + matchDuration)
      | some _ => r.endTime }

/-- newRoom (src/game.go lines 195-202): blank room with a fresh id, then a
first round reset. -/
noncomputable def newRoom (n : ℤ) (u : ℝ) (b : Bool) (now : ℝ) : Room :=
  resetRound u b now
    { id := "room-" ++ itoa n
      players0 := none
      players1 := none
      spectators := ∅
      paddleY0 := 0
      paddleY1 := 0
      score0 := 0
      score1 := 0
      ballX := 0
      ballY := 0
      ballVX := 0
      ballVY := 0
      startTime := none
      endTime := none
      lastTick := none }

/-! ## Simulation step (src/game.go step, lines 227-299), split into the
phases the source body performs in order. -/

/-- Paddle movement (lines 240-251).  `in0`, `in1` are the atomic loads of
the two seated clients this tick; the seat-nil check of the loop is subsumed
by the running guard of `step`. -/
noncomputable def movePaddles (r : Room) (dt : ℝ) (in0 in1 : Input) : Room :=
  let upd := fun (py : ℝ) (i : Input) =>
    if 0 ≤ i.mouseY then
      clamp ((i.mouseY : ℝ) - paddleH / 2) 0 (worldH - paddleH)
    else
      clamp (py + (i.moveDir : ℝ) * paddleSpeedPxS * dt) 0 (worldH - paddleH)
  { r with paddleY0 := upd r.paddleY0 in0, paddleY1 := upd r.paddleY1 in1 }

/-- Ball integration (lines 253-255). -/
def moveBall (r : Room) (dt : ℝ) : Room :=
  { r with ballX := r.ballX + r.ballVX * dt, ballY := r.ballY + r.ballVY * dt }

/-- Wall bounce against top and bottom (lines 257-265). -/
noncomputable def wallBounce (r : Room) : Room :=
  let r1 :=
    if r.ballY - ballRadius < 0 then
      { r with ballY := ballRadius, ballVY := -r.ballVY }
    else r
  if r1.ballY + ballRadius > worldH then
    { r1 with ballY := worldH - ballRadius, ballVY := -r1.ballVY }
  else r1

def leftFaceX : ℝ := paddleMargin + paddleW
def rightFaceX : ℝ := worldW - paddleMargin - paddleW
def leftPaddleX : ℝ := paddleMargin
def rightPaddleX : ℝ := worldW - paddleMargin - paddleW

/-- Left-paddle collision test (lines 274-276): the outer guard (moving left
and leading edge at or past the face plane) together with the inner guard
(ball centre inside the paddle span and not fully past the far edge). -/
def leftHit (r : Room) : Prop :=
  r.ballVX < 0 ∧ r.ballX - ballRadius ≤ leftFaceX ∧
    r.ballY ≥ r.paddleY0 ∧ r.ballY ≤ r.paddleY0 + paddleH ∧
    r.ballX + ballRadius ≥ leftPaddleX

/-- Right-paddle collision test (lines 282-284). -/
def rightHit (r : Room) : Prop :=
  r.ballVX > 0 ∧ r.ballX + ballRadius ≥ rightFaceX ∧
    r.ballY ≥ r.paddleY1 ∧ r.ballY ≤ r.paddleY1 + paddleH ∧
    r.ballX - ballRadius ≤ rightPaddleX + paddleW

/-- bounceOffPaddle (lines 301-327).  In the source a side-dependent `dir` is
assigned first and then unconditionally overwritten by the sign test on the
incoming horizontal velocity; the overwritten value is kept here as the
unused binding. -/
noncomputable def bounceOffPaddle (side : Fin 2) (r : Room) : Room :=
  let p := if side = 0 then r.paddleY0 else r.paddleY1
  let rel := clamp ((r.ballY - (p + paddleH / 2)) / (paddleH / 2)) (-1) 1
  let speed := clamp (Real.sqrt (r.ballVX ^ 2 + r.ballVY ^ 2) * 1.04)
    ballBaseSpeed maxBallSpeed
  let angle := rel * 0.9
  let _dirFromSide : ℝ := if side = 0 then 1 else -1
  let dir : ℝ := if r.ballVX < 0 then 1 else -1
  let vx := |speed * Real.cos angle|
  { r with ballVX := dir * vx, ballVY := speed * Real.sin angle }

/-- Paddle collision phase (lines 267-288): on a hit the ball is first
clamped to the face plane, then reflected. -/
noncomputable def collidePhase (r : Room) : Room :=
  let r1 :=
    if leftHit r then bounceOffPaddle 0 { r with ballX := leftFaceX + ballRadius }
    else r
  if rightHit r1 then bounceOffPaddle 1 { r1 with ballX := rightFaceX - ballRadius }
  else r1

/-- Scoring phase (lines 290-298); `u1/b1` and `u2/b2` are the rand draws a
left-exit reset respectively a right-exit reset would consume. -/
noncomputable def scorePhase (u1 : ℝ) (b1 : Bool) (u2 : ℝ) (b2 : Bool)
    (now : ℝ) (r : Room) : Room :=
  let r1 :=
    if r.ballX + ballRadius < 0 then
      resetRound u1 b1 now { r with score1 := r.score1 + 1 }
    else r
  if r1.ballX - ballRadius > worldW then
    resetRound u2 b2 now { r1 with score0 := r1.score0 + 1 }
  else r1

/-- Test `!r.endTime.IsZero() && time.Now().After(r.endTime)`. -/
def afterDeadline (t : Option ℝ) (now : ℝ) : Prop :=
  match t with
  | none => False
  | some e => now > e

/-- step (lines 227-299). -/
noncomputable def step (r : Room) (dt now : ℝ) (in0 in1 : Input)
    (u1 : ℝ) (b1 : Bool) (u2 : ℝ) (b2 : Bool) : Room :=
  if r.players0 = none ∨ r.players1 = none then r
  else if afterDeadline r.endTime now then r
  else scorePhase u1 b1 u2 b2 now
    (collidePhase (wallBounce (moveBall (movePaddles r dt in0 in1) dt)))

/-! ## Snapshot (src/game.go lines 329-367) -/

structure OutState where
  paddleY0 : ℝ
  paddleY1 : ℝ
  ballX : ℝ
  ballY : ℝ
  score0 : ℤ
  score1 : ℤ
  running : Bool
  secondsLeft : ℤ

/-- Go float64-to-int conversion: truncation toward zero. -/
noncomputable def truncSec (x : ℝ) : ℤ := if 0 ≤ x then ⌊x⌋ else ⌈x⌉

/-- snapshot, without the spectator name list (tracked by
`spectatorNames` below because the source builds it in map-iteration
order, which carries no information beyond the multiset). -/
noncomputable def snapshot (r : Room) (now : ℝ) : OutState :=
  let secondsLeft : ℤ :=
    match r.endTime with
    | none => 0
    | some e => let s := truncSec (e - now); if s < 0 then 0 else s
  let running0 : Bool := r.players0.isSome && r.players1.isSome
  let running : Bool :=
    match r.endTime with
    | none => running0
    | some e => if now > e then false else running0
  { paddleY0 := r.paddleY0, paddleY1 := r.paddleY1
    ballX := r.ballX, ballY := r.ballY
    score0 := r.score0, score1 := r.score1
    running := running, secondsLeft := secondsLeft }

/-- Spectator display names of a snapshot (lines 341-351), as a multiset
because Go map iteration order is unspecified. -/
def spectatorNames (cs : List (String × Client)) (r : Room) : Multiset String :=
  r.spectators.val.map fun cid =>
    let c := getClient cs cid
    if c.name ≠ "" then c.name else cid

/-! ## Hub operations (src/game.go lines 110-191) -/

def newHub : GameState := { clients := [], waitQ := [], nextRID := 0, rooms := [] }

/-- joinByRoomID (lines 114-131): admit a session as spectator of an
existing room, returning false when the id is unknown. -/
noncomputable def joinByRoomID (st : GameState) (cid roomID : String) :
    GameState × Bool :=
  match alGet st.rooms roomID with
  | none => (st, false)
  | some r =>
    let r1 := { r with spectators := insert cid r.spectators }
    ({ st with
        rooms := alSet st.rooms roomID r1
        clients := setClient st.clients cid
          fun c => { c with roomId := some roomID, side := -1 } },
      true)

/-- assignToRoom (lines 133-157): pair with the queue head, or enqueue. -/
noncomputable def assignToRoom (st : GameState) (cid : String)
    (u : ℝ) (b : Bool) (now : ℝ) : GameState :=
  match st.waitQ with
  | other :: rest =>
    let rid := st.nextRID
    let r0 := newRoom rid u b now
    let r := { r0 with players0 := some other, players1 := some cid }
    { st with
      waitQ := rest
      nextRID := rid + 1
      rooms := alSet st.rooms r.id r
      clients :=
        setClient
          (setClient st.clients other fun c => { c with roomId := some r.id, side := 0 })
          cid fun c => { c with roomId := some r.id, side := 1 } }
  | [] =>
    { st with
      waitQ := st.waitQ ++ [cid]
      clients := setClient st.clients cid fun c => { c with side := -1 } }

/-- removeClient (lines 159-191): drop from the waiting queue if present
(and stop there), otherwise detach from the room the client points at and
delete the room when it became empty. -/
noncomputable def removeClient (st : GameState) (cid : String) : GameState :=
  if cid ∈ st.waitQ then { st with waitQ := st.waitQ.erase cid }
  else
    match (getClient st.clients cid).roomId with
    | none => st
    | some rid =>
      match alGet st.rooms rid with
      | none => st
      | some r =>
        let r1 := { r with
          players0 := if r.players0 = some cid then none else r.players0
          players1 := if r.players1 = some cid then none else r.players1
          spectators := r.spectators.erase cid }
        if r1.players0 = none ∧ r1.players1 = none ∧ r1.spectators.card = 0 then
          { st with rooms := alDel st.rooms rid }
        else
          { st with rooms := alSet st.rooms rid r1 }

/-! ## Transport-facing join handler (src/main.go readPump, case "join") -/

inductive OutMsg where
  | hello (clientId roomId : String) (side w h : ℤ)
  | errorMsg (msg : String)
deriving Repr, DecidableEq

/-- The body of the "join" case of readPump (src/main.go lines 93-116):
store the name, refuse silently unless the session is unseated, and report
an unknown room id with a non-fatal error message. -/
noncomputable def handleJoin (st : GameState) (cid roomID name : String) :
    GameState × List OutMsg :=
  let st1 := { st with clients := setClient st.clients cid fun c => { c with name := name } }
  let c := getClient st1.clients cid
  if c.side = -1 then
    match joinByRoomID st1 cid roomID with
    | (st2, false) => (st2, [OutMsg.errorMsg "room not found"])
    | (st2, true) =>
      let c2 := getClient st2.clients cid
      (st2, [OutMsg.hello cid (c2.roomId.getD "") c2.side 800 600])
  else (st1, [])

/-! ## Derived observations used by the theorems -/

/-- Magnitude of the ball velocity (math.Hypot in the source). -/
noncomputable def ballSpeed (r : Room) : ℝ :=
  Real.sqrt (r.ballVX ^ 2 + r.ballVY ^ 2)

/-- Session membership in the waiting queue. -/
def sessionWaiting (st : GameState) (cid : String) : Prop := cid ∈ st.waitQ

/-- Session membership in some room seat. -/
def sessionSeated (st : GameState) (cid : String) : Prop :=
  ∃ p ∈ st.rooms, p.2.players0 = some cid ∨ p.2.players1 = some cid

/-- Session membership in some room spectator set. -/
def sessionSpectating (st : GameState) (cid : String) : Prop :=
  ∃ p ∈ st.rooms, cid ∈ p.2.spectators

/-! ## Spec-side definitions and concrete states used by the theorems -/

/-- Paddle-collision test as worded by the spec for C4: vertical EXTENT
overlap ("the ball's vertical extent overlaps the paddle's vertical
extent") instead of the centre-in-span test of the source; the other three
conditions follow the spec's words for the left seat. -/
def leftHitSpec (r : Room) : Prop :=
  r.ballVX < 0 ∧ r.ballX - ballRadius ≤ leftFaceX ∧
    r.ballY + ballRadius ≥ r.paddleY0 ∧ r.ballY - ballRadius ≤ r.paddleY0 + paddleH ∧
    r.ballX + ballRadius ≥ leftPaddleX

/-- Horizontal mirror of a room (x ↦ worldW - x, vx ↦ -vx, seats swapped),
used to state that the two paddle tests are mirror images. -/
def mirrorRoom (r : Room) : Room :=
  { r with
    ballX := worldW - r.ballX
    ballVX := -r.ballVX
    paddleY0 := r.paddleY1
    paddleY1 := r.paddleY0 }

/-- Both paddles inside [0, worldH - paddleH]. -/
def paddleInBounds (r : Room) : Prop :=
  0 ≤ r.paddleY0 ∧ r.paddleY0 ≤ worldH - paddleH ∧
    0 ≤ r.paddleY1 ∧ r.paddleY1 ≤ worldH - paddleH

/-- Neutral input: no held direction, mouse unused. -/
def inpStop : Input := { moveDir := 0, mouseY := -1 }

/-- Mid-match room: both seats filled, ball at centre moving right at base
speed, match clock from 0 to 300. -/
noncomputable def roomA : Room :=
  { id := "room-0"
    players0 := some "A"
    players1 := some "B"
    spectators := ∅
    paddleY0 := 255
    paddleY1 := 255
    score0 := 0
    score1 := 0
    ballX := 400
    ballY := 300
    ballVX := 360
    ballVY := 0
    startTime := some 0
    endTime := some 300
    lastTick := some 0 }

/-- Room whose ball overlaps the left paddle's vertical extent (centre just
above the paddle top) while moving left into the face plane. -/
noncomputable def rC4 : Room :=
  { roomA with ballX := 30, ballY := 250, ballVX := -100 }

/-- Room whose ball has fully left the world on the left with no horizontal
motion this tick. -/
noncomputable def roomExit : Room :=
  { roomA with ballX := -30, ballVX := 0 }

/-- Hub state after: B registers, C registers (creating room-0), A registers
(queued), then A sends a join for room-0. -/
noncomputable def stC1 : GameState :=
  (handleJoin
    (assignToRoom (assignToRoom (assignToRoom newHub "B" 0 false 0) "C" 0 false 0)
      "A" 0 false 0)
    "A" "room-0" "alice").1

/-! ## Basic lemmas about clamp -/

lemma le_clamp (v lo hi : ℝ) (h : lo ≤ hi) : lo ≤ clamp v lo hi := by
  unfold clamp
  split_ifs with h1 h2
  · exact le_refl lo
  · exact h
  · exact le_of_not_lt h1

lemma clamp_le (v lo hi : ℝ) (h : lo ≤ hi) : clamp v lo hi ≤ hi := by
  unfold clamp
  split_ifs with h1 h2
  · exact h
  · exact le_refl hi
  · exact le_of_not_lt h2

/-! ## C2: round reset speed and the match clock -/

/-- C2 counterexample: a round reset whose serve draw is u = 0.9 (angle
0.32 rad) produces a ball whose velocity magnitude is strictly more than
baseSpeed, refuting the claim that every reset leaves the magnitude equal to
baseSpeed. -/
theorem c2_counterexample :
    ballSpeed (resetRound 0.9 false 100 roomA) ≠ ballBaseSpeed := by
  have hvx : (resetRound 0.9 false 100 roomA).ballVX = 360 := by
    simp [resetRound, roomA, ballBaseSpeed]
  have hvy : (resetRound 0.9 false 100 roomA).ballVY = Real.tan 0.32 * 360 := by
    simp [resetRound, roomA, ballBaseSpeed]
    norm_num
  have htan : 0 < Real.tan 0.32 := by
    apply Real.tan_pos_of_pos_of_lt_pi_div_two (by norm_num)
    have := Real.pi_gt_three
    linarith
  have hgt : ballBaseSpeed < ballSpeed (resetRound 0.9 false 100 roomA) := by
    rw [ballSpeed, hvx, hvy, ballBaseSpeed]
    rw [Real.lt_sqrt (by norm_num)]
    have hsq : 0 < (Real.tan 0.32 * 360) ^ 2 :=
      pow_pos (mul_pos htan (by norm_num)) 2
    nlinarith
  exact (ne_of_gt hgt)

/-- C2 (amended): a round reset leaves the horizontal velocity component at
magnitude baseSpeed and the total velocity magnitude at least baseSpeed
(it equals baseSpeed only for a dead-level serve), and once the match
start/end timestamps are set the reset never alters matchEnd. -/
theorem c2_reset_speed_matchEnd (r : Room) (u : ℝ) (b : Bool) (now : ℝ) :
    |(resetRound u b now r).ballVX| = ballBaseSpeed ∧
    ballBaseSpeed ≤ ballSpeed (resetRound u b now r) ∧
    (r.startTime ≠ none → (resetRound u b now r).endTime = r.endTime) := by
  have hvx : |(resetRound u b now r).ballVX| = ballBaseSpeed := by
    cases b <;> simp [resetRound, ballBaseSpeed]
  refine ⟨hvx, ?_, ?_⟩
  · calc ballBaseSpeed = Real.sqrt ((resetRound u b now r).ballVX ^ 2) := by
          rw [Real.sqrt_sq_eq_abs, hvx]
      _ ≤ ballSpeed (resetRound u b now r) := by
          apply Real.sqrt_le_sqrt
          nlinarith [sq_nonneg (resetRound u b now r).ballVY]
  · intro h
    obtain ⟨t, ht⟩ := Option.ne_none_iff_exists'.mp h
    simp [resetRound, ht]

/-- C2 witness: the matchEnd part of the amended claim at a concrete
mid-match room. -/
theorem c2_witness :
    roomA.startTime ≠ none ∧ (resetRound 0 false 7 roomA).endTime = roomA.endTime :=
  ⟨by simp [roomA], (c2_reset_speed_matchEnd roomA 0 false 7).2.2 (by simp [roomA])⟩

/-! ## C3: collision speed law -/

/-- C3: a paddle hit sets the outgoing speed to
clamp(incoming speed * 1.04, baseSpeed, maxSpeed), realised exactly as the
magnitude of the outgoing velocity components; hence across consecutive
collisions the speed never decreases (for any physically reachable incoming
speed, i.e. one not already above maxSpeed) and never exceeds maxSpeed. -/
theorem c3_collision_speed (r : Room) (side : Fin 2) :
    ballSpeed (bounceOffPaddle side r)
      = clamp (ballSpeed r * 1.04) ballBaseSpeed maxBallSpeed ∧
    (ballSpeed r ≤ maxBallSpeed →
      ballSpeed r ≤ ballSpeed (bounceOffPaddle side r)) ∧
    ballSpeed (bounceOffPaddle side r) ≤ maxBallSpeed := by
  have hs0 : 0 ≤ ballSpeed r := Real.sqrt_nonneg _
  have hlohi : ballBaseSpeed ≤ maxBallSpeed := by
    norm_num [ballBaseSpeed, maxBallSpeed]
  have hlo : ballBaseSpeed ≤ clamp (ballSpeed r * 1.04) ballBaseSpeed maxBallSpeed :=
    le_clamp _ _ _ hlohi
  have hhi : clamp (ballSpeed r * 1.04) ballBaseSpeed maxBallSpeed ≤ maxBallSpeed :=
    clamp_le _ _ _ hlohi
  have hc0 : 0 ≤ clamp (ballSpeed r * 1.04) ballBaseSpeed maxBallSpeed := by
    have : (0:ℝ) ≤ ballBaseSpeed := by norm_num [ballBaseSpeed]
    linarith
  have hmain : ballSpeed (bounceOffPaddle side r)
      = clamp (ballSpeed r * 1.04) ballBaseSpeed maxBallSpeed := by
    simp only [bounceOffPaddle, ballSpeed]
    set a := clamp ((r.ballY - ((if side = 0 then r.paddleY0 else r.paddleY1)
      + paddleH / 2)) / (paddleH / 2)) (-1) 1 * 0.9 with ha
    set s2 := clamp (Real.sqrt (r.ballVX ^ 2 + r.ballVY ^ 2) * 1.04)
      ballBaseSpeed maxBallSpeed with hs2
    have hc1 : (0:ℝ) ≤ s2 := by
      rw [hs2]
      have h1 : (0:ℝ) ≤ ballBaseSpeed := by norm_num [ballBaseSpeed]
      have h2 := le_clamp (Real.sqrt (r.ballVX ^ 2 + r.ballVY ^ 2) * 1.04)
        ballBaseSpeed maxBallSpeed (by norm_num [ballBaseSpeed, maxBallSpeed])
      linarith
    have key : ∀ d : ℝ, d ^ 2 = 1 →
        Real.sqrt ((d * |s2 * Real.cos a|) ^ 2 + (s2 * Real.sin a) ^ 2) = s2 := by
      intro d hd
      have hsum : (d * |s2 * Real.cos a|) ^ 2 + (s2 * Real.sin a) ^ 2 = s2 ^ 2 := by
        have habs : |s2 * Real.cos a| ^ 2 = (s2 * Real.cos a) ^ 2 := sq_abs _
        have hpyth : Real.cos a ^ 2 + Real.sin a ^ 2 = 1 :=
          Real.cos_sq_add_sin_sq a
        calc (d * |s2 * Real.cos a|) ^ 2 + (s2 * Real.sin a) ^ 2
            = d ^ 2 * |s2 * Real.cos a| ^ 2 + (s2 * Real.sin a) ^ 2 := by ring
          _ = (s2 * Real.cos a) ^ 2 + (s2 * Real.sin a) ^ 2 := by
              rw [hd, habs]; ring
          _ = s2 ^ 2 * (Real.cos a ^ 2 + Real.sin a ^ 2) := by ring
          _ = s2 ^ 2 := by rw [hpyth]; ring
      rw [hsum]
      exact Real.sqrt_sq hc1
    split_ifs with h
    · exact key 1 (by norm_num)
    · exact key (-1) (by norm_num)
  refine ⟨hmain, ?_, ?_⟩
  · intro hle
    rw [hmain]
    unfold clamp
    split_ifs with h1 h2
    · norm_num [ballBaseSpeed] at h1 ⊢
      nlinarith
    · norm_num [maxBallSpeed] at hle ⊢
      exact hle
    · nlinarith
  · rw [hmain]; exact hhi

/-- C3 witness: at the concrete mid-match room the incoming speed is 360,
which is within the cap, and the hit does not decrease it. -/
theorem c3_witness :
    ballSpeed roomA ≤ maxBallSpeed ∧
    ballSpeed roomA ≤ ballSpeed (bounceOffPaddle 0 roomA) := by
  have h360 : ballSpeed roomA = 360 := by
    rw [ballSpeed, show roomA.ballVX = 360 from rfl, show roomA.ballVY = 0 from rfl]
    rw [show ((360:ℝ) ^ 2 + 0 ^ 2) = 360 ^ 2 by norm_num]
    exact Real.sqrt_sq (by norm_num)
  have hle : ballSpeed roomA ≤ maxBallSpeed := by
    rw [h360]; norm_num [maxBallSpeed]
  exact ⟨hle, (c3_collision_speed roomA 0).2.1 hle⟩

/-! ## Phase projection lemmas -/

@[simp] lemma movePaddles_ballX (r : Room) (dt : ℝ) (i0 i1 : Input) :
    (movePaddles r dt i0 i1).ballX = r.ballX := rfl

@[simp] lemma movePaddles_ballY (r : Room) (dt : ℝ) (i0 i1 : Input) :
    (movePaddles r dt i0 i1).ballY = r.ballY := rfl

@[simp] lemma movePaddles_ballVX (r : Room) (dt : ℝ) (i0 i1 : Input) :
    (movePaddles r dt i0 i1).ballVX = r.ballVX := rfl

@[simp] lemma movePaddles_ballVY (r : Room) (dt : ℝ) (i0 i1 : Input) :
    (movePaddles r dt i0 i1).ballVY = r.ballVY := rfl

@[simp] lemma movePaddles_score0 (r : Room) (dt : ℝ) (i0 i1 : Input) :
    (movePaddles r dt i0 i1).score0 = r.score0 := rfl

@[simp] lemma movePaddles_score1 (r : Room) (dt : ℝ) (i0 i1 : Input) :
    (movePaddles r dt i0 i1).score1 = r.score1 := rfl

@[simp] lemma moveBall_paddleY0 (r : Room) (dt : ℝ) :
    (moveBall r dt).paddleY0 = r.paddleY0 := rfl

@[simp] lemma moveBall_paddleY1 (r : Room) (dt : ℝ) :
    (moveBall r dt).paddleY1 = r.paddleY1 := rfl

@[simp] lemma moveBall_score0 (r : Room) (dt : ℝ) :
    (moveBall r dt).score0 = r.score0 := rfl

@[simp] lemma moveBall_score1 (r : Room) (dt : ℝ) :
    (moveBall r dt).score1 = r.score1 := rfl

@[simp] lemma wallBounce_paddleY0 (r : Room) :
    (wallBounce r).paddleY0 = r.paddleY0 := by
  unfold wallBounce; dsimp only; split_ifs <;> rfl

@[simp] lemma wallBounce_paddleY1 (r : Room) :
    (wallBounce r).paddleY1 = r.paddleY1 := by
  unfold wallBounce; dsimp only; split_ifs <;> rfl

@[simp] lemma wallBounce_score0 (r : Room) :
    (wallBounce r).score0 = r.score0 := by
  unfold wallBounce; dsimp only; split_ifs <;> rfl

@[simp] lemma wallBounce_score1 (r : Room) :
    (wallBounce r).score1 = r.score1 := by
  unfold wallBounce; dsimp only; split_ifs <;> rfl

@[simp] lemma wallBounce_ballX (r : Room) :
    (wallBounce r).ballX = r.ballX := by
  unfold wallBounce; dsimp only; split_ifs <;> rfl

@[simp] lemma wallBounce_ballVX (r : Room) :
    (wallBounce r).ballVX = r.ballVX := by
  unfold wallBounce; dsimp only; split_ifs <;> rfl

@[simp] lemma bounceOffPaddle_paddleY0 (side : Fin 2) (r : Room) :
    (bounceOffPaddle side r).paddleY0 = r.paddleY0 := rfl

@[simp] lemma bounceOffPaddle_paddleY1 (side : Fin 2) (r : Room) :
    (bounceOffPaddle side r).paddleY1 = r.paddleY1 := rfl

@[simp] lemma bounceOffPaddle_score0 (side : Fin 2) (r : Room) :
    (bounceOffPaddle side r).score0 = r.score0 := rfl

@[simp] lemma bounceOffPaddle_score1 (side : Fin 2) (r : Room) :
    (bounceOffPaddle side r).score1 = r.score1 := rfl

@[simp] lemma bounceOffPaddle_ballX (side : Fin 2) (r : Room) :
    (bounceOffPaddle side r).ballX = r.ballX := rfl

@[simp] lemma collidePhase_paddleY0 (r : Room) :
    (collidePhase r).paddleY0 = r.paddleY0 := by
  unfold collidePhase; dsimp only; split_ifs <;> rfl

@[simp] lemma collidePhase_paddleY1 (r : Room) :
    (collidePhase r).paddleY1 = r.paddleY1 := by
  unfold collidePhase; dsimp only; split_ifs <;> rfl

@[simp] lemma collidePhase_score0 (r : Room) :
    (collidePhase r).score0 = r.score0 := by
  unfold collidePhase; dsimp only; split_ifs <;> rfl

@[simp] lemma collidePhase_score1 (r : Room) :
    (collidePhase r).score1 = r.score1 := by
  unfold collidePhase; dsimp only; split_ifs <;> rfl

@[simp] lemma resetRound_paddleY0 (u : ℝ) (b : Bool) (now : ℝ) (r : Room) :
    (resetRound u b now r).paddleY0 = (worldH - paddleH) / 2 := rfl

@[simp] lemma resetRound_paddleY1 (u : ℝ) (b : Bool) (now : ℝ) (r : Room) :
    (resetRound u b now r).paddleY1 = (worldH - paddleH) / 2 := rfl

@[simp] lemma resetRound_ballX (u : ℝ) (b : Bool) (now : ℝ) (r : Room) :
    (resetRound u b now r).ballX = worldW / 2 := rfl

@[simp] lemma resetRound_ballY (u : ℝ) (b : Bool) (now : ℝ) (r : Room) :
    (resetRound u b now r).ballY = worldH / 2 := rfl

@[simp] lemma resetRound_score0 (u : ℝ) (b : Bool) (now : ℝ) (r : Room) :
    (resetRound u b now r).score0 = r.score0 := rfl

@[simp] lemma resetRound_score1 (u : ℝ) (b : Bool) (now : ℝ) (r : Room) :
    (resetRound u b now r).score1 = r.score1 := rfl

/-- A room with no satisfied collision test is unchanged by the collision
phase. -/
lemma collidePhase_no_hit (r : Room) (h1 : ¬ leftHit r) (h2 : ¬ rightHit r) :
    collidePhase r = r := by
  unfold collidePhase
  rw [if_neg h1, if_neg h2]

/-! ## C4: the paddle collision trigger -/

/-- C4 counterexample: a ball whose vertical extent overlaps the left paddle
(centre 5 units above the paddle top) while moving left into the face plane
satisfies the spec's extent-overlap trigger but does not satisfy the
source's centre-in-span trigger, and no collision fires. -/
theorem c4_counterexample :
    leftHitSpec rC4 ∧ ¬ leftHit rC4 ∧ collidePhase rC4 = rC4 := by
  have h2 : ¬ leftHit rC4 := by
    intro h
    have := h.2.2.1
    norm_num [rC4, roomA] at this
  have h3 : ¬ rightHit rC4 := by
    intro h
    have := h.1
    norm_num [rC4, roomA] at this
  refine ⟨?_, h2, collidePhase_no_hit rC4 h2 h3⟩
  unfold leftHitSpec
  norm_num [rC4, roomA, ballRadius, leftFaceX, leftPaddleX, paddleMargin,
    paddleW, paddleH]

/-- C4 (amended): a paddle collision fires exactly when the ball moves
toward that seat, its leading edge has reached the face plane, the ball's
CENTRE lies within the paddle's vertical span, and it has not fully passed
the far edge; on a hit the ball is clamped to the face plane and reflected,
and the right-seat test is the exact mirror image of the left-seat test. -/
theorem c4_hit_characterization (r : Room) :
    (¬ leftHit r ∧ ¬ rightHit r → collidePhase r = r) ∧
    (leftHit r →
      collidePhase r = bounceOffPaddle 0 { r with ballX := leftFaceX + ballRadius }) ∧
    (¬ leftHit r → rightHit r →
      collidePhase r = bounceOffPaddle 1 { r with ballX := rightFaceX - ballRadius }) ∧
    (rightHit r ↔ leftHit (mirrorRoom r)) ∧
    (leftHit r ↔ r.ballVX < 0 ∧ r.ballX - ballRadius ≤ leftFaceX ∧
      r.paddleY0 ≤ r.ballY ∧ r.ballY ≤ r.paddleY0 + paddleH ∧
      leftPaddleX ≤ r.ballX + ballRadius) := by
  refine ⟨?_, ?_, ?_, ?_, ?_⟩
  · intro ⟨h1, h2⟩
    exact collidePhase_no_hit r h1 h2
  · intro h1
    unfold collidePhase
    rw [if_pos h1]
    rw [if_neg ?_]
    intro hr
    have hx := hr.2.1
    rw [bounceOffPaddle_ballX] at hx
    norm_num [ballRadius, leftFaceX, rightFaceX, paddleMargin, paddleW, worldW] at hx
  · intro h1 h2
    unfold collidePhase
    rw [if_neg h1, if_pos h2]
  · unfold rightHit leftHit mirrorRoom
    dsimp only
    constructor
    · rintro ⟨h1, h2, h3, h4, h5⟩
      norm_num [ballRadius, rightFaceX, rightPaddleX, paddleMargin, paddleW,
        worldW] at h2 h5
      refine ⟨by linarith, ?_, h3, h4, ?_⟩
      · norm_num [ballRadius, leftFaceX, paddleMargin, paddleW, worldW]
        linarith
      · norm_num [ballRadius, leftPaddleX, paddleMargin, worldW]
        linarith
    · rintro ⟨h1, h2, h3, h4, h5⟩
      norm_num [ballRadius, leftFaceX, leftPaddleX, paddleMargin, paddleW,
        worldW] at h2 h5
      refine ⟨by linarith, ?_, h3, h4, ?_⟩
      · norm_num [ballRadius, rightFaceX, paddleMargin, paddleW, worldW]
        linarith
      · norm_num [ballRadius, rightPaddleX, paddleMargin, paddleW, worldW]
        linarith
  · unfold leftHit
    constructor
    · rintro ⟨h1, h2, h3, h4, h5⟩
      exact ⟨h1, h2, h3, h4, h5⟩
    · rintro ⟨h1, h2, h3, h4, h5⟩
      exact ⟨h1, h2, h3, h4, h5⟩

/-- C4 witness: at the centred room neither test fires and the collision
phase is the identity. -/
theorem c4_witness : collidePhase roomA = roomA := by
  apply (c4_hit_characterization roomA).1
  constructor
  · intro h
    have := h.1
    norm_num [roomA] at this
  · intro h
    have := h.2.1
    norm_num [roomA, ballRadius, rightFaceX, paddleMargin, paddleW, worldW] at this

/-! ## C6: no-op conditions of step, and the snapshot after the deadline -/

/-- C6: step leaves the room untouched when a seat is empty or the match
clock has expired; after the deadline the snapshot reports running = false
while both score counters stay visible unchanged. -/
theorem c6_noop_and_expired_snapshot (r : Room) (dt now : ℝ) (in0 in1 : Input)
    (u1 u2 : ℝ) (b1 b2 : Bool) :
    (r.players0 = none ∨ r.players1 = none →
      step r dt now in0 in1 u1 b1 u2 b2 = r) ∧
    (∀ e, r.endTime = some e → now > e →
      step r dt now in0 in1 u1 b1 u2 b2 = r ∧
      (snapshot r now).running = false ∧
      (snapshot r now).score0 = r.score0 ∧
      (snapshot r now).score1 = r.score1) := by
  constructor
  · intro h
    unfold step
    rw [if_pos h]
  · intro e he hnow
    refine ⟨?_, ?_, ?_, ?_⟩
    · unfold step
      split_ifs with h1 h2
      · rfl
      · rfl
      · exfalso
        apply h2
        rw [he]
        exact hnow
    · simp [snapshot, he, hnow]
    · simp [snapshot]
    · simp [snapshot]

/-- C6 witness: a room with the left seat empty is untouched by step, and a
snapshot of the full mid-match room one second past its deadline reports
running = false. -/
theorem c6_witness :
    step { roomA with players0 := none } 0 0 inpStop inpStop 0 false 0 false
      = { roomA with players0 := none } ∧
    (snapshot roomA 301).running = false :=
  ⟨(c6_noop_and_expired_snapshot { roomA with players0 := none }
      0 0 inpStop inpStop 0 0 false false).1 (Or.inl rfl),
   ((c6_noop_and_expired_snapshot roomA 0 301 inpStop inpStop 0 0 false false).2
      300 rfl (by norm_num)).2.1⟩

/-! ## C8: scoring and the immediate round reset -/

/-- C8: in a running step whose ball, after movement, wall reflection and
the collision pass, has fully exited the left boundary, the right seat's
score rises by exactly one (left unchanged) and the round reset inside the
same step recentres the ball to (400, 300) and both paddles to 255; the
mirror statement holds for a right-boundary exit. -/
theorem c8_scoring (r : Room) (dt now : ℝ) (in0 in1 : Input)
    (u1 u2 : ℝ) (b1 b2 : Bool)
    (hp : ¬(r.players0 = none ∨ r.players1 = none))
    (hd : ¬ afterDeadline r.endTime now) :
    ((collidePhase (wallBounce (moveBall (movePaddles r dt in0 in1) dt))).ballX
        + ballRadius < 0 →
      (step r dt now in0 in1 u1 b1 u2 b2).score1 = r.score1 + 1 ∧
      (step r dt now in0 in1 u1 b1 u2 b2).score0 = r.score0 ∧
      (step r dt now in0 in1 u1 b1 u2 b2).ballX = 400 ∧
      (step r dt now in0 in1 u1 b1 u2 b2).ballY = 300 ∧
      (step r dt now in0 in1 u1 b1 u2 b2).paddleY0 = 255 ∧
      (step r dt now in0 in1 u1 b1 u2 b2).paddleY1 = 255) ∧
    ((collidePhase (wallBounce (moveBall (movePaddles r dt in0 in1) dt))).ballX
        - ballRadius > worldW →
      (step r dt now in0 in1 u1 b1 u2 b2).score0 = r.score0 + 1 ∧
      (step r dt now in0 in1 u1 b1 u2 b2).score1 = r.score1 ∧
      (step r dt now in0 in1 u1 b1 u2 b2).ballX = 400 ∧
      (step r dt now in0 in1 u1 b1 u2 b2).ballY = 300 ∧
      (step r dt now in0 in1 u1 b1 u2 b2).paddleY0 = 255 ∧
      (step r dt now in0 in1 u1 b1 u2 b2).paddleY1 = 255) := by
  have hstep : step r dt now in0 in1 u1 b1 u2 b2
      = scorePhase u1 b1 u2 b2 now
          (collidePhase (wallBounce (moveBall (movePaddles r dt in0 in1) dt))) := by
    unfold step
    rw [if_neg hp, if_neg hd]
  set mid := collidePhase (wallBounce (moveBall (movePaddles r dt in0 in1) dt))
    with hmid
  have hsc0 : mid.score0 = r.score0 := by rw [hmid]; simp
  have hsc1 : mid.score1 = r.score1 := by rw [hmid]; simp
  constructor
  · intro hexit
    have hphase : scorePhase u1 b1 u2 b2 now mid
        = resetRound u1 b1 now { mid with score1 := mid.score1 + 1 } := by
      unfold scorePhase
      dsimp only
      rw [if_pos hexit, if_neg ?_]
      rw [resetRound_ballX]
      norm_num [worldW, ballRadius]
    rw [hstep, hphase]
    refine ⟨?_, ?_, ?_, ?_, ?_, ?_⟩
    · rw [resetRound_score1]
      show mid.score1 + 1 = r.score1 + 1
      rw [hsc1]
    · rw [resetRound_score0]
      exact hsc0
    · rw [resetRound_ballX]; norm_num [worldW]
    · rw [resetRound_ballY]; norm_num [worldH]
    · rw [resetRound_paddleY0]; norm_num [worldH, paddleH]
    · rw [resetRound_paddleY1]; norm_num [worldH, paddleH]
  · intro hexit
    have hnoleft : ¬ (mid.ballX + ballRadius < 0) := by
      norm_num [worldW, ballRadius] at hexit ⊢
      linarith
    have hphase : scorePhase u1 b1 u2 b2 now mid
        = resetRound u2 b2 now { mid with score0 := mid.score0 + 1 } := by
      unfold scorePhase
      dsimp only
      rw [if_neg hnoleft, if_pos hexit]
    rw [hstep, hphase]
    refine ⟨?_, ?_, ?_, ?_, ?_, ?_⟩
    · rw [resetRound_score0]
      show mid.score0 + 1 = r.score0 + 1
      rw [hsc0]
    · rw [resetRound_score1]
      exact hsc1
    · rw [resetRound_ballX]; norm_num [worldW]
    · rw [resetRound_ballY]; norm_num [worldH]
    · rw [resetRound_paddleY0]; norm_num [worldH, paddleH]
    · rw [resetRound_paddleY1]; norm_num [worldH, paddleH]

/-- C8 witness: concrete running room whose ball sits fully past the left
boundary with no horizontal motion this tick; the step scores for the right
seat and recentres the ball. -/
theorem c8_witness :
    (step roomExit 0 0 inpStop inpStop 0 false 0 false).score1
      = roomExit.score1 + 1 ∧
    (step roomExit 0 0 inpStop inpStop 0 false 0 false).ballX = 400 := by
  have hvx : (wallBounce (moveBall (movePaddles roomExit 0 inpStop inpStop) 0)).ballVX
      = 0 := by
    rw [wallBounce_ballVX]
    show (moveBall (movePaddles roomExit 0 inpStop inpStop) 0).ballVX = 0
    rfl
  have hx : (wallBounce (moveBall (movePaddles roomExit 0 inpStop inpStop) 0)).ballX
      = -30 := by
    rw [wallBounce_ballX]
    show roomExit.ballX + roomExit.ballVX * 0 = -30
    norm_num [roomExit, roomA]
  have hnol : ¬ leftHit (wallBounce (moveBall (movePaddles roomExit 0 inpStop inpStop) 0)) := by
    intro h
    unfold leftHit at h
    rw [hvx] at h
    exact lt_irrefl 0 h.1
  have hnor : ¬ rightHit (wallBounce (moveBall (movePaddles roomExit 0 inpStop inpStop) 0)) := by
    intro h
    unfold rightHit at h
    rw [hvx] at h
    exact lt_irrefl 0 h.1
  have hmidx : (collidePhase (wallBounce (moveBall (movePaddles roomExit 0 inpStop inpStop) 0))).ballX
      = -30 := by
    rw [collidePhase_no_hit _ hnol hnor, hx]
  have h := (c8_scoring roomExit 0 0 inpStop inpStop 0 0 false false
    (by simp [roomExit, roomA])
    (by norm_num [afterDeadline, roomExit, roomA])).1
    (by rw [hmidx]; norm_num [ballRadius])
  exact ⟨h.1, h.2.2.1⟩

/-! ## C9: the paddle clamping invariant -/

/-- All paddle outcomes of the running body of step stay inside the world
bounds: the paddle pass clamps both paddles and a scoring reset recentres
them. -/
lemma runBody_paddleInBounds (r : Room) (dt now : ℝ) (in0 in1 : Input)
    (u1 u2 : ℝ) (b1 b2 : Bool) :
    paddleInBounds (scorePhase u1 b1 u2 b2 now
      (collidePhase (wallBounce (moveBall (movePaddles r dt in0 in1) dt)))) := by
  have hWH : (0:ℝ) ≤ worldH - paddleH := by norm_num [worldH, paddleH]
  have hmB : paddleInBounds (movePaddles r dt in0 in1) := by
    unfold movePaddles paddleInBounds
    dsimp only
    refine ⟨?_, ?_, ?_, ?_⟩ <;> split_ifs <;>
      first
        | exact le_clamp _ _ _ hWH
        | exact clamp_le _ _ _ hWH
  have hpres : paddleInBounds
      (collidePhase (wallBounce (moveBall (movePaddles r dt in0 in1) dt))) := by
    unfold paddleInBounds at hmB ⊢
    simpa using hmB
  have h255 : ∀ (r2 : Room) (u : ℝ) (b : Bool),
      paddleInBounds (resetRound u b now r2) := by
    intro r2 u b
    unfold paddleInBounds
    rw [resetRound_paddleY0, resetRound_paddleY1]
    norm_num [worldH, paddleH]
  unfold scorePhase
  dsimp only
  split_ifs
  · exact h255 _ _ _
  · exact h255 _ _ _
  · exact h255 _ _ _
  · exact hpres

/-- C9: for every dt ≥ 0 and every combination of paddle inputs, step keeps
both paddles inside [0, worldH - paddleH]; a running step establishes the
bounds outright, and the no-op branches preserve them. -/
theorem c9_paddle_bounds (r : Room) (dt now : ℝ) (in0 in1 : Input)
    (u1 u2 : ℝ) (b1 b2 : Bool) (_hdt : 0 ≤ dt) :
    (paddleInBounds r → paddleInBounds (step r dt now in0 in1 u1 b1 u2 b2)) ∧
    (¬(r.players0 = none ∨ r.players1 = none) → ¬ afterDeadline r.endTime now →
      paddleInBounds (step r dt now in0 in1 u1 b1 u2 b2)) := by
  constructor
  · intro hpre
    unfold step
    split_ifs
    · exact hpre
    · exact hpre
    · exact runBody_paddleInBounds r dt now in0 in1 u1 u2 b1 b2
  · intro h1 h2
    unfold step
    rw [if_neg h1, if_neg h2]
    exact runBody_paddleInBounds r dt now in0 in1 u1 u2 b1 b2

/-- C9 witness: the running mid-match room keeps its paddles in bounds. -/
theorem c9_witness :
    (0:ℝ) ≤ 0 ∧ paddleInBounds (step roomA 0 0 inpStop inpStop 0 false 0 false) :=
  ⟨le_refl 0,
   (c9_paddle_bounds roomA 0 0 inpStop inpStop 0 0 false false (le_refl 0)).2
     (by simp [roomA]) (by norm_num [afterDeadline, roomA])⟩

/-! ## C10: the remaining-seconds field -/

/-- C10: the snapshot's remaining-seconds field equals
max 0 ⌊matchEnd - now⌋ when a match clock is set, and is the sentinel 0 when
no clock has been set. -/
theorem c10_seconds_left (r : Room) (now : ℝ) :
    (r.endTime = none → (snapshot r now).secondsLeft = 0) ∧
    (∀ e, r.endTime = some e →
      (snapshot r now).secondsLeft = max 0 ⌊e - now⌋) := by
  constructor
  · intro h
    simp [snapshot, h]
  · intro e he
    simp only [snapshot, he]
    unfold truncSec
    rcases le_or_lt 0 (e - now) with h | h
    · have h0 : (0:ℤ) ≤ ⌊e - now⌋ := Int.floor_nonneg.mpr h
      rw [if_pos h, if_neg (not_lt.mpr h0), max_eq_right h0]
    · have hfl : ⌊e - now⌋ < 0 := Int.floor_lt.mpr (by exact_mod_cast h)
      rw [if_neg (not_le.mpr h), max_eq_left (le_of_lt hfl)]
      split_ifs with hc
      · rfl
      · have h1 : ⌈e - now⌉ ≤ 0 := Int.ceil_le.mpr (by exact_mod_cast le_of_lt h)
        omega

/-- C10 witness: the mid-match room observed at time 3 reports
max 0 ⌊300 - 3⌋ = 297 remaining seconds. -/
theorem c10_witness :
    (snapshot roomA 3).secondsLeft = max 0 ⌊(300:ℝ) - 3⌋ :=
  (c10_seconds_left roomA 3).2 300 rfl

/-! ## Lookup lemmas for the client and room tables -/

lemma getClient_setClient_self (cs : List (String × Client)) (cid : String)
    (f : Client → Client) :
    getClient (setClient cs cid f) cid = f (getClient cs cid) := by
  induction cs with
  | nil => simp [setClient, getClient]
  | cons p rest ih =>
    obtain ⟨k, c⟩ := p
    by_cases h : k = cid
    · subst h
      simp [setClient, getClient]
    · simp [setClient, getClient, h, ih]

lemma getClient_setClient_ne (cs : List (String × Client)) (cid k : String)
    (f : Client → Client) (h : k ≠ cid) :
    getClient (setClient cs cid f) k = getClient cs k := by
  induction cs with
  | nil => simp [setClient, getClient, Ne.symm h]
  | cons p rest ih =>
    obtain ⟨k1, c⟩ := p
    by_cases h1 : k1 = cid
    · subst h1
      simp [setClient, getClient, Ne.symm h]
    · by_cases h2 : k1 = k
      · subst h2
        simp [setClient, getClient, h1]
      · simp [setClient, getClient, h1, h2, ih]

lemma alGet_alSet_self {α : Type} (m : List (String × α)) (k : String) (v : α) :
    alGet (alSet m k v) k = some v := by
  induction m with
  | nil => simp [alSet, alGet]
  | cons p rest ih =>
    obtain ⟨k1, v1⟩ := p
    by_cases h : k1 = k
    · subst h
      simp [alSet, alGet]
    · simp [alSet, alGet, h, ih]

/-- Pairing branch of assignToRoom, spelled out. -/
lemma assignToRoom_pair (s : GameState) (cid other : String) (rest : List String)
    (u : ℝ) (b : Bool) (now : ℝ) (hw : s.waitQ = other :: rest) :
    assignToRoom s cid u b now = { s with
      waitQ := rest
      nextRID := s.nextRID + 1
      rooms := alSet s.rooms ("room-" ++ itoa s.nextRID)
        { newRoom s.nextRID u b now with players0 := some other, players1 := some cid }
      clients := setClient (setClient s.clients other
          fun c => { c with roomId := some ("room-" ++ itoa s.nextRID), side := 0 })
        cid fun c => { c with roomId := some ("room-" ++ itoa s.nextRID), side := 1 } } := by
  unfold assignToRoom
  rw [hw]
  rfl

/-- Queue branch of assignToRoom, spelled out. -/
lemma assignToRoom_enqueue (s : GameState) (cid : String)
    (u : ℝ) (b : Bool) (now : ℝ) (hw : s.waitQ = []) :
    assignToRoom s cid u b now = { s with
      waitQ := [cid]
      clients := setClient s.clients cid fun c => { c with side := -1 } } := by
  unfold assignToRoom
  rw [hw]
  rfl

/-! ## C5: pairing the first two registrations -/

/-- C5: on an empty hub, registering A and then B creates exactly one room,
keyed and named by the fresh id from the counter, with A seated Left
(side 0) and B seated Right (side 1), an incremented counter, and an empty
waiting queue (with A queued in between). -/
theorem c5_pairing (st : GameState) (A B : String) (u1 u2 : ℝ) (b1 b2 : Bool)
    (now1 now2 : ℝ) (hq : st.waitQ = []) (hr : st.rooms = []) (hAB : A ≠ B) :
    (assignToRoom st A u1 b1 now1).waitQ = [A] ∧
    (assignToRoom (assignToRoom st A u1 b1 now1) B u2 b2 now2).waitQ = [] ∧
    (assignToRoom (assignToRoom st A u1 b1 now1) B u2 b2 now2).nextRID
      = st.nextRID + 1 ∧
    (∃ r, alGet (assignToRoom (assignToRoom st A u1 b1 now1) B u2 b2 now2).rooms
        ("room-" ++ itoa st.nextRID) = some r ∧
      r.id = "room-" ++ itoa st.nextRID ∧
      r.players0 = some A ∧ r.players1 = some B) ∧
    (getClient (assignToRoom (assignToRoom st A u1 b1 now1) B u2 b2 now2).clients
        A).side = 0 ∧
    (getClient (assignToRoom (assignToRoom st A u1 b1 now1) B u2 b2 now2).clients
        B).side = 1 ∧
    (getClient (assignToRoom (assignToRoom st A u1 b1 now1) B u2 b2 now2).clients
        A).roomId = some ("room-" ++ itoa st.nextRID) ∧
    (getClient (assignToRoom (assignToRoom st A u1 b1 now1) B u2 b2 now2).clients
        B).roomId = some ("room-" ++ itoa st.nextRID) := by
  have e1 := assignToRoom_enqueue st A u1 b1 now1 hq
  have hw1 : (assignToRoom st A u1 b1 now1).waitQ = [A] := by rw [e1]
  have hn1 : (assignToRoom st A u1 b1 now1).nextRID = st.nextRID := by rw [e1]
  have hr1 : (assignToRoom st A u1 b1 now1).rooms = st.rooms := by rw [e1]
  have hc1 : (assignToRoom st A u1 b1 now1).clients
      = setClient st.clients A (fun c => { c with side := -1 }) := by rw [e1]
  have e2 := assignToRoom_pair (assignToRoom st A u1 b1 now1) B A [] u2 b2 now2 hw1
  refine ⟨hw1, ?_, ?_, ?_, ?_, ?_, ?_, ?_⟩
  · rw [e2]
  · rw [e2]
    dsimp only
    rw [hn1]
  · rw [e2]
    dsimp only
    rw [hn1, hr1, hr]
    exact ⟨_, alGet_alSet_self _ _ _, rfl, rfl, rfl⟩
  · rw [e2]
    dsimp only
    rw [getClient_setClient_ne _ _ _ _ hAB, getClient_setClient_self]
  · rw [e2]
    dsimp only
    rw [getClient_setClient_self]
  · rw [e2]
    dsimp only
    rw [getClient_setClient_ne _ _ _ _ hAB, getClient_setClient_self, hn1]
  · rw [e2]
    dsimp only
    rw [getClient_setClient_self, hn1]

/-- C5 witness: the two registrations on the brand-new hub. -/
theorem c5_witness :
    (assignToRoom (assignToRoom newHub "A" 0 false 0) "B" 0 false 0).waitQ = [] ∧
    (getClient (assignToRoom (assignToRoom newHub "A" 0 false 0) "B" 0 false 0).clients
      "A").side = 0 ∧
    (getClient (assignToRoom (assignToRoom newHub "A" 0 false 0) "B" 0 false 0).clients
      "B").side = 1 := by
  have h := c5_pairing newHub "A" "B" 0 0 false false 0 0 rfl rfl (by decide)
  exact ⟨h.2.1, h.2.2.2.2.1, h.2.2.2.2.2.1⟩

/-! ## C7: spectator join with an unknown room id -/

/-- C7: joining an unknown room id fails with RoomNotFound (the boolean
failure of joinByRoomID, surfaced by the join handler as the distinct
non-fatal message "room not found"); the hub directory, queue, counter and
the session's seat and room binding are all unchanged, leaving the session
free to retry. -/
theorem c7_room_not_found (st : GameState) (cid roomID name : String)
    (h : alGet st.rooms roomID = none) :
    joinByRoomID st cid roomID = (st, false) ∧
    ((getClient st.clients cid).side = -1 →
      (handleJoin st cid roomID name).2 = [OutMsg.errorMsg "room not found"] ∧
      (handleJoin st cid roomID name).1.rooms = st.rooms ∧
      (handleJoin st cid roomID name).1.waitQ = st.waitQ ∧
      (handleJoin st cid roomID name).1.nextRID = st.nextRID ∧
      (getClient (handleJoin st cid roomID name).1.clients cid).side
        = (getClient st.clients cid).side ∧
      (getClient (handleJoin st cid roomID name).1.clients cid).roomId
        = (getClient st.clients cid).roomId) := by
  have hjoin : joinByRoomID st cid roomID = (st, false) := by
    unfold joinByRoomID
    rw [h]
  refine ⟨hjoin, ?_⟩
  intro hside
  have hj1 : joinByRoomID
      { st with clients := setClient st.clients cid (fun c => { c with name := name }) }
      cid roomID
      = ({ st with clients := setClient st.clients cid (fun c => { c with name := name }) },
        false) := by
    unfold joinByRoomID
    dsimp only
    rw [h]
  have hsideEq : (getClient (setClient st.clients cid
      (fun c => { c with name := name })) cid).side
      = (getClient st.clients cid).side := by
    rw [getClient_setClient_self]
  unfold handleJoin
  dsimp only
  rw [if_pos (by rw [hsideEq]; exact hside), hj1]
  refine ⟨rfl, rfl, rfl, rfl, hsideEq, ?_⟩
  rw [getClient_setClient_self]

/-- C7 witness: an unseated session asking the brand-new hub for a room
that does not exist. -/
theorem c7_witness :
    joinByRoomID newHub "A" "nope" = (newHub, false) ∧
    (handleJoin newHub "A" "nope" "alice").2 = [OutMsg.errorMsg "room not found"] := by
  have h := c7_room_not_found newHub "A" "nope" "alice" rfl
  exact ⟨h.1, (h.2 rfl).1⟩

/-! ## C1: a session can end up in two hub structures at once -/

/-- C1: evaluating the source operations on the sequence (B registers, C
registers creating room-0, A registers and is queued, A sends a spectator
join for room-0) leaves A simultaneously in the waiting queue and in
room-0's spectator set; unregistering A then removes it only from the
queue, leaving the closed session in the spectator set, contradicting the
claimed one-structure invariant. -/
theorem c1_session_in_two_structures :
    sessionWaiting stC1 "A" ∧ sessionSpectating stC1 "A" ∧
    ¬ sessionWaiting (removeClient stC1 "A") "A" ∧
    sessionSpectating (removeClient stC1 "A") "A" := by
  unfold sessionWaiting sessionSpectating stC1
  decide

end Pong
